import Mathlib

/-!
Verification of the vidscribe batch-transcription CLI (Go) against its
natural-language specification.

The embedding below is a shallow translation of the Go sources:

* `src/srt.go` — `getTimestamp` (SRT timestamp formatting);
* `src/unnamed/part_000` — `VideoToMp3` (audio-artifact path), `ApplySubtitles`
  (subtitle-path escaping, burned-video artifact path);
* `src/unnamed/part_001` — `transcribeDir` / `transcribeFile` (directory walk
  and extension filter, per-task stage sequencing with error collection,
  temp-workspace lifetime, final placement paths, summary line);
* `src/unnamed/part_004` — the `Schema` / segment data model.

Go `float64` values are modelled as `ℚ`; machine strings as `String`;
fallible calls as `Except`/`Option`.  External effects (ffmpeg, the
transcription service, the filesystem) are modelled as per-task oracles that
say whether each call succeeds or with which error message it fails, and as
explicit event traces where ordering (scheduling, deferred cleanup) is the
property at stake.
-/

namespace Vidscribe

/-- Zero-padding of a decimal string to a minimum width, as produced by Go's
`fmt.Sprintf("%0Nd", x)` for the non-negative values that occur here. -/
def padZeros (w : Nat) (s : String) : String :=
  if w ≤ s.length then s else String.mk (List.replicate (w - s.length) '0') ++ s

/-- Go's conversion `int(q)` of a float to an integer: truncation toward zero. -/
def goTrunc (q : ℚ) : ℤ := if 0 ≤ q then ⌊q⌋ else ⌈q⌉

/-- Embedding of `getTimestamp` (src/srt.go lines 86-96).  The Go source reads:

    hour := fmt.Sprintf("%02d", int(math.Floor(time/60/60)))
    min := fmt.Sprintf("%02d", int(math.Floor(time/60)))
    sec := fmt.Sprintf("%02d", int(math.Floor(time)))
    ms := fmt.Sprintf("%03d", int((time-float64(int(time)))*1000))
    return fmt.Sprintf("%v:%v:%v,%v", hour, min, sec, ms)

`time` is a `float64`, modelled as `ℚ`; `int(math.Floor x)` is the floor
itself, and the inner `int(time)` truncates toward zero (`goTrunc`).  At the
inputs the specification discusses (such as 186.4, whose closest `float64` is
slightly above 186.4) the rational model and the IEEE-double computation
produce identical field values. -/
def getTimestamp (time : ℚ) : String :=
  let hour := padZeros 2 (toString ⌊time / 60 / 60⌋)
  let min := padZeros 2 (toString ⌊time / 60⌋)
  let sec := padZeros 2 (toString ⌊time⌋)
  let ms := padZeros 3 (toString (goTrunc ((time - ((goTrunc time : ℤ) : ℚ)) * 1000)))
  hour ++ ":" ++ min ++ ":" ++ sec ++ "," ++ ms

/-- One step of Go's `strings.ReplaceAll` for a single-character pattern:
every occurrence of the character `pat` is replaced by `rep`.  Both calls in
`ApplySubtitles` use one-character patterns, for which Go's non-overlapping
left-to-right replacement is exactly this character-wise map. -/
def replaceAllChar (pat : Char) (rep : List Char) : List Char → List Char
  | [] => []
  | c :: rest => (if c = pat then rep else [c]) ++ replaceAllChar pat rep rest

/-- String-level wrapper for `replaceAllChar`. -/
def goReplaceAllChar (s : String) (pat : Char) (rep : String) : String :=
  String.mk (replaceAllChar pat rep.data s.data)

/-- Embedding of the escaping in `ApplySubtitles` (src/unnamed/part_000 lines
40-41): first every backslash becomes a double backslash, then every colon
becomes backslash-colon, before the path is embedded in the ffmpeg
`subtitles=` filter expression. -/
def escapeSrtPath (strFilePath : String) : String :=
  goReplaceAllChar (goReplaceAllChar strFilePath '\\' "\\\\") ':' "\\:"

/-- Embedding of Go's `filepath.Base` for slash-separated paths: trailing
slashes are dropped, then everything up to and including the last remaining
slash; the empty path gives `.` and an all-slash path gives `/`. -/
def goBase (path : String) : String :=
  if path = "" then "." else
  let r := path.data.reverse.dropWhile (fun c => c = '/')
  if r = [] then "/" else String.mk ((r.takeWhile (fun c => c ≠ '/')).reverse)

/-- Helper for `goExt`: scans the characters of the final path element from
the end; the first dot found starts the extension, a slash (or exhaustion)
means there is none.  `acc` holds the characters already passed, in original
order. -/
def goExtAux : List Char → List Char → List Char
  | [], _ => []
  | c :: rest, acc =>
    if c = '/' then [] else if c = '.' then '.' :: acc else goExtAux rest (c :: acc)

/-- Embedding of Go's `filepath.Ext`: the suffix beginning at the final dot in
the final slash-separated element of the path, empty if there is no dot. -/
def goExt (path : String) : String :=
  String.mk (goExtAux path.data.reverse [])

/-- Embedding of Go's `strings.TrimSuffix`: drops `suffix` from the end of `s`
when present, otherwise returns `s` unchanged. -/
def goTrimSuffix (s suffix : String) : String :=
  if suffix.data.isSuffixOf s.data then
    String.mk (s.data.take (s.data.length - suffix.data.length))
  else s

/-- Embedding of Go's `filepath.Join dir name` for the uses in this program: a
non-empty, already-clean directory (as produced by `os.MkdirTemp`) joined
with a single file name, which is plain concatenation with a separator. -/
def goJoin (dir name : String) : String := dir ++ "/" ++ name

/-- Embedding of Go's `strings.ToLower` as a character-wise map.  Go performs
full Unicode simple case mapping; `Char.toLower` agrees with it on the ASCII
range, which covers every extension string this program compares. -/
def goToLower (s : String) : String := String.mk (s.data.map Char.toLower)

/-- The allow-list of video extensions, `validVideoFormats` in
src/unnamed/part_001 line 21. -/
def validVideoFormats : List String := [".mp4", ".mov", ".mkv", ".webm", ".avi"]

/-- One entry offered to the `filepath.WalkDir` callback in `transcribeDir`
(src/unnamed/part_001 lines 103-117): a path together with whether the entry
is a directory. -/
structure WalkEntry where
  path : String
  isDir : Bool
deriving DecidableEq

/-- The filter applied by the walk callback: directories are skipped, and a
file is kept exactly when its extension, lower-cased, is in the allow-list
(`slices.Contains(validVideoFormats, strings.ToLower(filepath.Ext(path)))`). -/
def keepEntry (e : WalkEntry) : Bool :=
  !e.isDir && validVideoFormats.contains (goToLower (goExt e.path))

/-- The resolved set `validFiles` accumulated by the walk in `transcribeDir`:
the paths of the entries the callback keeps, in visit order. -/
def validFiles (entries : List WalkEntry) : List String :=
  (entries.filter keepEntry).map WalkEntry.path

/-- One transcript segment from the `Schema` struct (src/unnamed/part_004
lines 12-19): `Start` and `End` are `float64` seconds (modelled as `ℚ`, with
`End` renamed `stop` because `end` is reserved), `Text` is the spoken text. -/
structure Segment where
  start : ℚ
  stop : ℚ
  text : String

/-- The structured transcription response `Schema` (src/unnamed/part_004):
a language tag and the ordered list of segments. -/
structure Schema where
  language : String
  segments : List Segment

/-- Modelled from the spec: the text of one SRT cue as laid out by the current
three-argument `GenerateSrtFile`, whose source file is missing from `src/`
(src/srt.go holds two superseded versions; the current caller at
src/unnamed/part_001 line 160 passes `(transcript, filenameNoExt,
tempDirPath)`).  Following §4.3 of the spec, cue `i` (1-based) is the index
line, the `<start> --> <end>` timestamp line, the `- <text>` line, and a
blank line separating it from the next cue. -/
def cueText (i : Nat) (v : Segment) : String :=
  toString (i + 1) ++ "\n" ++
  getTimestamp v.start ++ " --> " ++ getTimestamp v.stop ++ "\n" ++
  "- " ++ v.text ++ "\n" ++ "\n"

/-- Modelled from the spec: the whole SRT text, the concatenation of the cue
blocks in segment order; `i` is the number of cues already emitted. -/
def srtBody : Nat → List Segment → String
  | _, [] => ""
  | i, v :: rest => cueText i v ++ srtBody (i + 1) rest

/-- Modelled from the spec: the workspace path of the generated subtitle file,
`filename` + `.srt` inside the workspace, where the caller (src/unnamed/
part_001 line 159) passes the source basename with its extension trimmed. -/
def srtOutputPath (tempPath filename : String) : String :=
  goJoin tempPath (filename ++ ".srt")

/-- Modelled from the spec: the current three-argument `GenerateSrtFile`,
returning the SRT text it writes and the workspace path it writes it to. -/
def GenerateSrtFile (transcript : Schema) (filename tempPath : String) : String × String :=
  (srtBody 0 transcript.segments, srtOutputPath tempPath filename)

/-- The `filenameNoExt` computed by `transcribeDir` (src/unnamed/part_001 line
159): the source basename with its extension trimmed. -/
def stemOf (fullpath : String) : String :=
  goTrimSuffix (goBase fullpath) (goExt fullpath)

/-- The subtitle-file workspace path of the task for `fullpath`: the modelled
`GenerateSrtFile` output path at the stem the real caller passes. -/
def srtPathFor (tempDirPath fullpath : String) : String :=
  srtOutputPath tempDirPath (stemOf fullpath)

/-- The audio-artifact workspace path produced by `VideoToMp3`
(src/unnamed/part_000 lines 12-13):
`filepath.Join(tempDirPath, filepath.Base(fileinputPath) + "_audio.mp3")`. -/
def videoToMp3Path (tempDirPath fileinputPath : String) : String :=
  goJoin tempDirPath (goBase fileinputPath ++ "_audio.mp3")

/-- The burned-video workspace path produced by `ApplySubtitles`
(src/unnamed/part_000 lines 36-37):
`filepath.Join(tempDirPath, "transcribed_" + filepath.Base(fileinputPath))`. -/
def applySubtitlesTempPath (tempDirPath fileinputPath : String) : String :=
  goJoin tempDirPath ("transcribed_" ++ goBase fileinputPath)

/-- The final destination of a task in directory mode (src/unnamed/part_001
line 180): `os.Rename(tempVideoPath, "./transcribed_" + filename)` with
`filename := filepath.Base(fullpath)`. -/
def destPath (fullpath : String) : String :=
  "./transcribed_" ++ goBase fullpath

/-- Effect of one `os.Rename` into the final destination on the set of final
outputs, as an association list from destination path to the source video it
came from: rename replaces whatever was previously at the destination. -/
def placeOne (outs : List (String × String)) (dest src : String) : List (String × String) :=
  if outs.any (fun e => e.1 == dest) then
    outs.map (fun e => if e.1 == dest then (dest, src) else e)
  else outs ++ [(dest, src)]

/-- The final outputs after the placement stages of all successful tasks run
in batch order. -/
def finalOutputs (srcs : List String) : List (String × String) :=
  srcs.foldl (fun outs p => placeOne outs (destPath p) p) []

/-- Per-task oracle for the five fallible calls made by the loop body of
`transcribeDir` (src/unnamed/part_001 lines 141-194) and by `transcribeFile`
(lines 232-263): for each call, `none` means it succeeds and `some e` means
it fails with underlying error message `e`.  The calls are external (ffmpeg,
the Gemini service, the filesystem), so their outcomes are environment
inputs of the model. -/
structure TaskBehavior where
  videoToMp3Err : Option String
  transcribeErr : Option String
  generateSrtErr : Option String
  applySubtitlesErr : Option String
  renameErr : Option String
deriving DecidableEq

/-- The pipeline of one task as run by the `transcribeDir` loop body: the five
calls in order, stopping at the first failure with the error message the Go
code builds there (`VideoToMp3` wraps its own error with the input path,
src/unnamed/part_000 line 28; the loop wraps transcription and SRT errors,
src/unnamed/part_001 lines 154 and 163; `ApplySubtitles` wraps its own error,
src/unnamed/part_000 line 55; the rename error is appended as is).  On
success the task ends Done with the final destination path. -/
def runTask (fullpath : String) (b : TaskBehavior) : Except String String :=
  match b.videoToMp3Err with
  | some e => .error (e ++ "\nerror while converting " ++ fullpath ++ " to audio format")
  | none =>
    match b.transcribeErr with
    | some e => .error (e ++ "\nerror while transcribing video")
    | none =>
      match b.generateSrtErr with
      | some e => .error (e ++ "\nerror while saving srt file")
      | none =>
        match b.applySubtitlesErr with
        | some e => .error (e ++ "\nerror while adding subtitles to original video")
        | none =>
          match b.renameErr with
          | some e => .error e
          | none => .ok (destPath fullpath)

/-- Whether the task for `fullpath` under behavior `b` reaches Done. -/
def taskDone (fullpath : String) (b : TaskBehavior) : Bool :=
  match runTask fullpath b with
  | .ok _ => true
  | .error _ => false

/-- The aggregation loop of `transcribeDir` (src/unnamed/part_001 lines
131-194): each resolved video is processed in order; a success increments the
`success` counter, a failure appends its error to `errs` and the loop
continues with the next video. -/
def dirLoop (tasks : List (String × TaskBehavior)) : Nat × List String :=
  tasks.foldl
    (fun acc t =>
      match runTask t.1 t.2 with
      | .ok _ => (acc.1 + 1, acc.2)
      | .error e => (acc.1, acc.2 ++ [e]))
    (0, [])

/-- The summary line printed by `transcribeDir` (src/unnamed/part_001 line
204): `Processed <success> videos successfully; <failed> failed in <seconds>
seconds`, with the elapsed-seconds text an environment input. -/
def summaryLine (success failed : Nat) (secs : String) : String :=
  "Processed " ++ toString success ++ " videos successfully; " ++
    toString failed ++ " failed in " ++ secs ++ " seconds"

/-- Embedding of `transcribeDir` (src/unnamed/part_001 lines 92-207) at the
batch level: the walk result and the temp-directory creation are environment
inputs; when both succeed the loop runs over all resolved tasks and the
function returns `nil` after printing the summary line (modelled as the `ok`
value), whatever the individual task outcomes were. -/
def transcribeDir (walk : Except String (List (String × TaskBehavior)))
    (mkTemp : Except String Unit) (secs : String) : Except String String :=
  match walk with
  | .error _ => .error "failed to traverse directory and its subdirectories"
  | .ok tasks =>
    match mkTemp with
    | .error _ => .error "error while creating temp folder"
    | .ok _ =>
      let r := dirLoop tasks
      .ok (summaryLine r.1 r.2.length secs)

/-- Scheduling events of the batch: the moment the pipeline for a source path
begins executing and the moment it completes (Done or Failed). -/
inductive TaskEv where
  | start (p : String)
  | finish (p : String)
deriving DecidableEq, BEq

/-- The scheduling trace of the `transcribeDir` loop (src/unnamed/part_001
lines 141-194).  The loop body is plain sequential Go — there is no `go`
statement and no `WaitGroup` in the current code, only a vestigial mutex — so
each task's pipeline runs to completion before the next one begins. -/
def dirSchedule : List (String × TaskBehavior) → List TaskEv
  | [] => []
  | t :: rest => TaskEv.start t.1 :: TaskEv.finish t.1 :: dirSchedule rest

/-- The scheduling property asserted by the specification (fan-out/join): no
task's execution is serialized behind another task's completion, i.e. every
task's start occurs in the trace before every other task's finish. -/
def noTaskSerialized (tasks : List (String × TaskBehavior)) : Prop :=
  ∀ p ∈ tasks.map Prod.fst, ∀ q ∈ tasks.map Prod.fst, p ≠ q →
    (dirSchedule tasks).indexOf (TaskEv.start q) <
      (dirSchedule tasks).indexOf (TaskEv.finish p)

/-- A task behavior in which all five stage calls succeed. -/
def okBehavior : TaskBehavior := ⟨none, none, none, none, none⟩

/-- A concrete two-task batch in which every stage succeeds. -/
def demoBatch : List (String × TaskBehavior) :=
  [("v/a.mp4", okBehavior), ("v/b.mp4", okBehavior)]

/-- A task behavior whose transcription call fails with message `boom`. -/
def transcribeFailBehavior : TaskBehavior := ⟨none, some "boom", none, none, none⟩

/-- A concrete first segment, 0s to 1s. -/
def demoSeg1 : Segment := ⟨0, 1, "hello"⟩

/-- A concrete second segment, 1s to 2s. -/
def demoSeg2 : Segment := ⟨1, 2, "world"⟩

/-- A concrete two-segment transcript. -/
def demoTranscript : Schema := ⟨"en", [demoSeg1, demoSeg2]⟩

/-- Resource events of a run: creating the temporary workspace, the five
per-task stage calls, and the deferred `os.RemoveAll` of the workspace. -/
inductive RunEv where
  | mkTempDir
  | videoToMp3
  | transcribeVideo
  | generateSrt
  | applySubtitles
  | renameFinal
  | removeAll
deriving DecidableEq

/-- The stage calls one task attempts under behavior `b`: each call is made
only if every earlier call succeeded, mirroring the early `continue`/`return`
after each error check. -/
def stageEvents (b : TaskBehavior) : List RunEv :=
  RunEv.videoToMp3 ::
    match b.videoToMp3Err with
    | some _ => []
    | none =>
      RunEv.transcribeVideo ::
        match b.transcribeErr with
        | some _ => []
        | none =>
          RunEv.generateSrt ::
            match b.generateSrtErr with
            | some _ => []
            | none =>
              RunEv.applySubtitles ::
                match b.applySubtitlesErr with
                | some _ => []
                | none => [RunEv.renameFinal]

/-- The stage calls of a whole directory batch, in loop order. -/
def dirStageEvents : List (String × TaskBehavior) → List RunEv
  | [] => []
  | t :: rest => stageEvents t.2 ++ dirStageEvents rest

/-- Resource trace of `transcribeFile` (src/unnamed/part_001 lines 209-267):
an unsupported extension returns before the workspace exists; a failed
`os.MkdirTemp` returns with no workspace; otherwise the workspace is created,
the stages run until the first failure, and the `defer os.RemoveAll`
registered immediately after creation (line 230) runs when the function
returns, on success and on every early error return alike. -/
def fileTrace (inputPath : String) (mkTempOk : Bool) (b : TaskBehavior) : List RunEv :=
  if validVideoFormats.contains (goToLower (goExt inputPath)) = false then []
  else if mkTempOk = false then []
  else RunEv.mkTempDir :: (stageEvents b ++ [RunEv.removeAll])

/-- Resource trace of `transcribeDir` (src/unnamed/part_001 lines 92-207):
a failed walk returns before the workspace exists; a failed `os.MkdirTemp`
returns with no workspace; otherwise the workspace is created, all tasks run,
and the `defer os.RemoveAll` registered immediately after creation (line 129)
runs when the function returns. -/
def dirTrace (walkOk mkTempOk : Bool) (tasks : List (String × TaskBehavior)) : List RunEv :=
  if walkOk = false then []
  else if mkTempOk = false then []
  else RunEv.mkTempDir :: (dirStageEvents tasks ++ [RunEv.removeAll])

end Vidscribe

namespace Vidscribe

/-- Claim C1: the timestamp formatter applied to 186.4 seconds.  The Go code
computes the seconds field as `floor(time)` with no `mod 60`, so the value
186 is printed in full (`%02d` is a minimum width, not a truncation) and the
result is `00:03:186,400` — not the `00:03:06,400` promised by the code's own
comment and by the specification.  186.4 is the rational 932/5. -/
theorem getTimestamp_at_186_4 :
    getTimestamp ((932 : ℚ) / 5) = "00:03:186,400" ∧
    getTimestamp ((932 : ℚ) / 5) ≠ "00:03:06,400" := by
  have h1 : ⌊(932 : ℚ) / 5 / 60 / 60⌋ = 0 := by norm_num
  have h2 : ⌊(932 : ℚ) / 5 / 60⌋ = 3 := by norm_num
  have h3 : ⌊(932 : ℚ) / 5⌋ = 186 := by norm_num
  have h4 : goTrunc ((932 : ℚ) / 5) = 186 := by rw [goTrunc, if_pos (by norm_num)]; norm_num
  have h5 : goTrunc (((932 : ℚ) / 5 - ((186 : ℤ) : ℚ)) * 1000) = 400 := by
    rw [goTrunc, if_pos (by norm_num)]; norm_num
  rw [getTimestamp, h1, h2, h3, h4, h5]
  constructor
  · rfl
  · decide

/-- Claim C3: subtitle-path escaping replaces backslashes with double
backslashes first, colons with backslash-colon second; on the path
`C:\clips\a.srt` the first pass yields `C:\\clips\\a.srt` and the second pass
yields `C\:\\clips\\a.srt`. -/
theorem escapeSrtPath_example :
    goReplaceAllChar "C:\\clips\\a.srt" '\\' "\\\\" = "C:\\\\clips\\\\a.srt" ∧
    escapeSrtPath "C:\\clips\\a.srt" = "C\\:\\\\clips\\\\a.srt" := by
  constructor <;> rfl

/-- Claim C8: a path is in the resolved set of the directory walk exactly when
it comes from a non-directory entry whose extension, lower-cased, is one of
`.mp4`, `.mov`, `.mkv`, `.webm`, `.avi`. -/
theorem validFiles_mem_iff (entries : List WalkEntry) (p : String) :
    p ∈ validFiles entries ↔
      ∃ e, e ∈ entries ∧ e.path = p ∧ e.isDir = false ∧
        goToLower (goExt e.path) ∈ validVideoFormats := by
  simp only [validFiles, List.mem_map, List.mem_filter, keepEntry, Bool.and_eq_true,
    Bool.not_eq_true', List.contains, List.elem_iff]
  constructor
  · rintro ⟨e, ⟨he, hd, hm⟩, hp⟩
    exact ⟨e, he, hp, hd, hm⟩
  · rintro ⟨e, he, hp, hd, hm⟩
    exact ⟨e, ⟨he, hd, hm⟩, hp⟩

/-- Helper: along the aggregation loop, each task adds one to the success
counter or one to the error list, so the two totals always account for every
task processed. -/
theorem dirLoop_go_balance (tasks : List (String × TaskBehavior)) :
    ∀ acc : Nat × List String,
      (tasks.foldl
        (fun acc t =>
          match runTask t.1 t.2 with
          | .ok _ => (acc.1 + 1, acc.2)
          | .error e => (acc.1, acc.2 ++ [e]))
        acc).1 +
      (tasks.foldl
        (fun acc t =>
          match runTask t.1 t.2 with
          | .ok _ => (acc.1 + 1, acc.2)
          | .error e => (acc.1, acc.2 ++ [e]))
        acc).2.length = acc.1 + acc.2.length + tasks.length := by
  induction tasks with
  | nil => intro acc; simp
  | cons t rest ih =>
    intro acc
    simp only [List.foldl_cons, List.length_cons]
    rw [ih]
    cases h : runTask t.1 t.2 <;> simp [List.length_append] <;> omega

/-- Claim C5: once the walk and the temp-directory creation have succeeded,
`transcribeDir` returns without error whatever the individual task outcomes
are — even a batch whose every task failed — and the value it reports is the
summary line built from the accumulated success and failure counts, which
together account for every resolved task. -/
theorem transcribeDir_no_batch_error (tasks : List (String × TaskBehavior)) (secs : String) :
    transcribeDir (.ok tasks) (.ok ()) secs =
      .ok (summaryLine (dirLoop tasks).1 (dirLoop tasks).2.length secs) ∧
    (dirLoop tasks).1 + (dirLoop tasks).2.length = tasks.length := by
  refine ⟨rfl, ?_⟩
  have h := dirLoop_go_balance tasks (0, [])
  simpa [dirLoop] using h

/-- Claim C4: in a three-task batch where task 2 fails at its transcription
stage and every other stage of every task succeeds, tasks 1 and 3 reach Done,
the batch counts two successes, and the error list holds exactly the one
entry appended during task 2's iteration — its transcription error wrapped by
the loop. -/
theorem batch_partial_failure (p1 p2 p3 : String) (b1 b2 b3 : TaskBehavior) (e : String)
    (h11 : b1.videoToMp3Err = none) (h12 : b1.transcribeErr = none)
    (h13 : b1.generateSrtErr = none) (h14 : b1.applySubtitlesErr = none)
    (h15 : b1.renameErr = none)
    (h21 : b2.videoToMp3Err = none) (h22 : b2.transcribeErr = some e)
    (h23 : b2.generateSrtErr = none) (h24 : b2.applySubtitlesErr = none)
    (h25 : b2.renameErr = none)
    (h31 : b3.videoToMp3Err = none) (h32 : b3.transcribeErr = none)
    (h33 : b3.generateSrtErr = none) (h34 : b3.applySubtitlesErr = none)
    (h35 : b3.renameErr = none) :
    runTask p1 b1 = .ok (destPath p1) ∧
    runTask p3 b3 = .ok (destPath p3) ∧
    dirLoop [(p1, b1), (p2, b2), (p3, b3)] =
      (2, [e ++ "\nerror while transcribing video"]) := by
  refine ⟨?_, ?_, ?_⟩
  · rw [runTask, h11, h12, h13, h14, h15]
  · rw [runTask, h31, h32, h33, h34, h35]
  · simp [dirLoop, runTask, h11, h12, h13, h14, h15, h21, h22, h31, h32, h33, h34, h35]

/-- Witness for C4 at a concrete batch: tasks 1 and 3 fully succeed, task 2's
transcription call fails with message `boom`. -/
theorem batch_partial_failure_witness :
    runTask "v/a.mp4" okBehavior = .ok (destPath "v/a.mp4") ∧
    runTask "v/c.mp4" okBehavior = .ok (destPath "v/c.mp4") ∧
    dirLoop [("v/a.mp4", okBehavior), ("v/b.mp4", transcribeFailBehavior), ("v/c.mp4", okBehavior)] =
      (2, ["boom" ++ "\nerror while transcribing video"]) :=
  batch_partial_failure "v/a.mp4" "v/b.mp4" "v/c.mp4" okBehavior transcribeFailBehavior
    okBehavior "boom" rfl rfl rfl rfl rfl rfl rfl rfl rfl rfl rfl rfl rfl rfl rfl

/-- Claim C10: the final destination of a directory-mode task is
`./transcribed_<basename>`, a function of the source basename alone; the two
distinct resolved paths `vids/a.mp4` and `vids/other/a.mp4` therefore target
the identical destination, and after both placements run, the surviving
content at that destination is the later task's. -/
theorem destPath_basename_collision :
    (∀ p : String, destPath p = "./transcribed_" ++ goBase p) ∧
    ("vids/a.mp4" : String) ≠ "vids/other/a.mp4" ∧
    destPath "vids/a.mp4" = destPath "vids/other/a.mp4" ∧
    finalOutputs ["vids/a.mp4", "vids/other/a.mp4"] =
      [("./transcribed_a.mp4", "vids/other/a.mp4")] :=
  ⟨fun _ => rfl, by decide, by decide, by decide⟩

/-- Helper: joining the same directory with names that share a common suffix
is injective in the varying middle part. -/
theorem goJoin_cancel_suffix (a s x y : String) (h : goJoin a (x ++ s) = goJoin a (y ++ s)) :
    x = y := by
  have hd := congrArg String.data h
  simp only [goJoin, String.data_append] at hd
  exact String.ext (List.append_cancel_right (List.append_cancel_left hd))

/-- Helper: joining the same directory with names that share a common prefix
is injective in the varying tail part. -/
theorem goJoin_cancel_prefix (a c x y : String) (h : goJoin a (c ++ x) = goJoin a (c ++ y)) :
    x = y := by
  have hd := congrArg String.data h
  simp only [goJoin, String.data_append] at hd
  have h1 : c.data ++ x.data = c.data ++ y.data := List.append_cancel_left hd
  exact String.ext (List.append_cancel_left h1)

/-- Counterexample to claim C7 as stated: the resolved paths `vids/a.mp4` and
`vids/sub/a.mov` have distinct basenames, yet their subtitle files land on
the identical workspace path, because the subtitle filename is built from the
basename with its extension trimmed. -/
theorem srt_namespace_collision :
    goBase "vids/a.mp4" ≠ goBase "vids/sub/a.mov" ∧
    srtPathFor "T" "vids/a.mp4" = srtPathFor "T" "vids/sub/a.mov" := by
  constructor
  · decide
  · rfl

/-- Amended claim C7: the audio artifact and the burned-video artifact are
namespaced by the full source basename — distinct basenames never collide —
while the subtitle artifact is namespaced by the basename with its extension
trimmed, so it is collision-free only for tasks with distinct stems. -/
theorem artifact_namespacing (tmp p q : String) :
    (goBase p ≠ goBase q → videoToMp3Path tmp p ≠ videoToMp3Path tmp q) ∧
    (goBase p ≠ goBase q → applySubtitlesTempPath tmp p ≠ applySubtitlesTempPath tmp q) ∧
    (stemOf p ≠ stemOf q → srtPathFor tmp p ≠ srtPathFor tmp q) := by
  refine ⟨fun hne heq => hne ?_, fun hne heq => hne ?_, fun hne heq => hne ?_⟩
  · rw [videoToMp3Path, videoToMp3Path] at heq
    exact goJoin_cancel_suffix tmp "_audio.mp3" (goBase p) (goBase q) heq
  · rw [applySubtitlesTempPath, applySubtitlesTempPath] at heq
    exact goJoin_cancel_prefix tmp "transcribed_" (goBase p) (goBase q) heq
  · rw [srtPathFor, srtPathFor, srtOutputPath, srtOutputPath] at heq
    exact goJoin_cancel_suffix tmp ".srt" (stemOf p) (stemOf q) heq

/-- Witness for the amended C7 at concrete paths with distinct basenames and
distinct stems: no workspace artifact path collides. -/
theorem artifact_namespacing_witness :
    videoToMp3Path "T" "v/a.mp4" ≠ videoToMp3Path "T" "v/b.mp4" ∧
    applySubtitlesTempPath "T" "v/a.mp4" ≠ applySubtitlesTempPath "T" "v/b.mp4" ∧
    srtPathFor "T" "v/a.mp4" ≠ srtPathFor "T" "v/b.mp4" :=
  ⟨(artifact_namespacing "T" "v/a.mp4" "v/b.mp4").1 (by decide),
   (artifact_namespacing "T" "v/a.mp4" "v/b.mp4").2.1 (by decide),
   (artifact_namespacing "T" "v/a.mp4" "v/b.mp4").2.2 (by decide)⟩

/-- Claim C9: in both run modes, once the temporary workspace has been
created (which requires, in single-file mode, passing the extension check
that precedes creation, and in directory mode, a successful walk), the trace
of every possible run — success or any early error return — ends with the
deferred removal of the workspace, registered immediately after creation. -/
theorem workspace_removed_on_every_exit (input : String) (b : TaskBehavior)
    (tasks : List (String × TaskBehavior))
    (hext : validVideoFormats.contains (goToLower (goExt input)) = true) :
    (∃ mid, fileTrace input true b = RunEv.mkTempDir :: (mid ++ [RunEv.removeAll])) ∧
    (∃ mid, dirTrace true true tasks = RunEv.mkTempDir :: (mid ++ [RunEv.removeAll])) := by
  constructor
  · exact ⟨stageEvents b, by simp [fileTrace, hext]; exact List.mem_of_elem_eq_true hext⟩
  · exact ⟨dirStageEvents tasks, rfl⟩

/-- Witness for C9: a supported single input whose burn stage fails, and a
one-task directory batch; both traces still end with the workspace removal. -/
theorem workspace_removed_on_every_exit_witness :
    validVideoFormats.contains (goToLower (goExt "v/a.mp4")) = true ∧
    (∃ mid, fileTrace "v/a.mp4" true ⟨none, none, none, some "burn failed", none⟩ =
      RunEv.mkTempDir :: (mid ++ [RunEv.removeAll])) ∧
    (∃ mid, dirTrace true true [("v/b.mov", okBehavior)] =
      RunEv.mkTempDir :: (mid ++ [RunEv.removeAll])) :=
  ⟨by decide,
   (workspace_removed_on_every_exit "v/a.mp4" ⟨none, none, none, some "burn failed", none⟩
      [("v/b.mov", okBehavior)] (by decide)).1,
   (workspace_removed_on_every_exit "v/a.mp4" ⟨none, none, none, some "burn failed", none⟩
      [("v/b.mov", okBehavior)] (by decide)).2⟩

/-- Counterexample to claim C6 as stated: in the concrete two-task batch,
task 2's start event comes after task 1's finish event in the loop's trace,
so the tasks are not started together — the second task's execution is
serialized behind the first task's completion. -/
theorem batch_not_fanout_join : ¬ noTaskSerialized demoBatch := by
  unfold noTaskSerialized
  decide

/-- Helper: every task of the batch has its start event somewhere in the
scheduling trace. -/
theorem dirSchedule_start_mem (tasks : List (String × TaskBehavior)) :
    ∀ (j : Nat) (b : String × TaskBehavior), tasks[j]? = some b →
      ∃ u w, dirSchedule tasks = u ++ TaskEv.start b.1 :: w := by
  induction tasks with
  | nil => intro j b hb; simp at hb
  | cons t rest ih =>
    intro j b hb
    cases j with
    | zero =>
      simp only [List.getElem?_cons_zero, Option.some.injEq] at hb
      subst hb
      exact ⟨[], TaskEv.finish t.1 :: dirSchedule rest, rfl⟩
    | succ n =>
      simp only [List.getElem?_cons_succ] at hb
      obtain ⟨u, w, hu⟩ := ih n b hb
      exact ⟨TaskEv.start t.1 :: TaskEv.finish t.1 :: u, w, by simp [dirSchedule, hu]⟩

/-- Amended claim C6: the batch coordinator executes the pipelines strictly
sequentially, one iteration of the loop per resolved path, in resolution
order: whenever task `i` precedes task `j` in the batch, task `i`'s finish
event occurs in the trace before task `j`'s start event. -/
theorem dir_tasks_sequential (tasks : List (String × TaskBehavior)) :
    ∀ (i j : Nat) (a b : String × TaskBehavior),
      tasks[i]? = some a → tasks[j]? = some b → i < j →
      ∃ pre mid post, dirSchedule tasks =
        pre ++ TaskEv.finish a.1 :: (mid ++ TaskEv.start b.1 :: post) := by
  induction tasks with
  | nil => intro i j a b ha; simp at ha
  | cons t rest ih =>
    intro i j a b ha hb hij
    cases i with
    | zero =>
      simp only [List.getElem?_cons_zero, Option.some.injEq] at ha
      subst ha
      cases j with
      | zero => omega
      | succ n =>
        simp only [List.getElem?_cons_succ] at hb
        obtain ⟨u, w, hu⟩ := dirSchedule_start_mem rest n b hb
        exact ⟨[TaskEv.start t.1], u, w, by simp [dirSchedule, hu]⟩
    | succ m =>
      cases j with
      | zero => omega
      | succ n =>
        simp only [List.getElem?_cons_succ] at ha hb
        obtain ⟨pre, mid, post, h⟩ := ih m n a b ha hb (by omega)
        exact ⟨TaskEv.start t.1 :: TaskEv.finish t.1 :: pre, mid, post,
          by simp [dirSchedule, h]⟩

/-- Witness for the amended C6 at the concrete two-task batch: the first
task's finish precedes the second task's start. -/
theorem dir_tasks_sequential_witness :
    ∃ pre mid post, dirSchedule demoBatch =
      pre ++ TaskEv.finish "v/a.mp4" :: (mid ++ TaskEv.start "v/b.mp4" :: post) :=
  dir_tasks_sequential demoBatch 0 1 ("v/a.mp4", okBehavior) ("v/b.mp4", okBehavior)
    rfl rfl (by decide)

/-- Helper: in the generated SRT text, any two consecutive cues appear as the
first cue's text line, a blank line, then the index line of the next cue;
`k` counts the cues already emitted before `segs`. -/
theorem srtBody_adjacent (segs : List Segment) :
    ∀ (k i : Nat) (v w : Segment), segs[i]? = some v → segs[i + 1]? = some w →
      ∃ pre post : List Char, (srtBody k segs).data =
        pre ++ ("- " ++ v.text ++ "\n").data ++ "\n".data ++
          (toString (k + i + 2) ++ "\n").data ++ post := by
  induction segs with
  | nil => intro k i v w hv _; simp at hv
  | cons v0 rest ih =>
    intro k i v w hv hw
    cases i with
    | zero =>
      simp only [List.getElem?_cons_zero, Option.some.injEq] at hv
      subst hv
      cases rest with
      | nil => simp at hw
      | cons w0 rs =>
        refine ⟨(toString (k + 1) ++ "\n" ++ getTimestamp v0.start ++ " --> " ++
            getTimestamp v0.stop ++ "\n").data,
          (getTimestamp w0.start ++ " --> " ++ getTimestamp w0.stop ++ "\n" ++
            "- " ++ w0.text ++ "\n" ++ "\n" ++ srtBody (k + 2) rs).data, ?_⟩
        have e : k + 0 + 2 = k + 1 + 1 := by omega
        rw [e]
        simp [srtBody, cueText, String.data_append, List.append_assoc]
    | succ m =>
      simp only [List.getElem?_cons_succ] at hv hw
      obtain ⟨pre, post, h⟩ := ih (k + 1) m v w hv hw
      have e : k + 1 + m + 2 = k + (m + 1) + 2 := by omega
      rw [e] at h
      exact ⟨(cueText k v0).data ++ pre, post,
        by simp [srtBody, String.data_append, h, List.append_assoc]⟩

/-- Claim C2: in the subtitle text produced by the formatter, every cue that
has a successor is followed by a blank line before the successor's index
line: after cue `i`'s text line (`- <text>` terminated by a newline) comes an
empty line, then the line holding the 1-based index `i + 2` of the next
cue. -/
theorem generateSrt_blank_line (transcript : Schema) (filename tempPath : String)
    (i : Nat) (v w : Segment)
    (hv : transcript.segments[i]? = some v) (hw : transcript.segments[i + 1]? = some w) :
    ∃ pre post : List Char, (GenerateSrtFile transcript filename tempPath).1.data =
      pre ++ ("- " ++ v.text ++ "\n").data ++ "\n".data ++
        (toString (i + 2) ++ "\n").data ++ post := by
  obtain ⟨pre, post, h⟩ := srtBody_adjacent transcript.segments 0 i v w hv hw
  have e : 0 + i + 2 = i + 2 := by omega
  rw [e] at h
  exact ⟨pre, post, h⟩

/-- Witness for C2 at a concrete two-segment transcript. -/
theorem generateSrt_blank_line_witness :
    demoTranscript.segments[0]? = some demoSeg1 ∧
    demoTranscript.segments[0 + 1]? = some demoSeg2 ∧
    ∃ pre post : List Char, (GenerateSrtFile demoTranscript "a" "T").1.data =
      pre ++ ("- " ++ demoSeg1.text ++ "\n").data ++ "\n".data ++
        (toString (0 + 2) ++ "\n").data ++ post :=
  ⟨rfl, rfl, generateSrt_blank_line demoTranscript "a" "T" 0 demoSeg1 demoSeg2 rfl rfl⟩

end Vidscribe
